import Mathlib

/-!
Shallow embedding of the Job-Tracker dashboard frontend
(`src/components/ImportHistoryTable.tsx` and the dashboard page).

The React component state is modelled explicitly; each `fetch`-driven
handler becomes a pure state transformer that also returns the list of
toast notifications it emits.  A `fetch` result is `Option (HttpResponse α)`:
`none` models a rejected promise (network error), `some r` a settled
response with HTTP-level `ok` flag and parsed JSON body.
-/

/-- A toast notification shown to the user via react-hot-toast. -/
inductive Toast where
  | success (msg : String)
  | error (msg : String)
  deriving DecidableEq

/-- JSON body shape of the backend replies: `\x7bsuccess, message?, data?\x7d`.
A missing `data` field (JS `undefined`) is `none`. -/
structure ApiBody (α : Type) where
  success : Bool
  message : Option String
  data : Option α
  deriving DecidableEq

/-- A settled HTTP response: the `ok` flag (status in the 2xx range) plus the
parsed JSON body. -/
structure HttpResponse (α : Type) where
  ok : Bool
  body : ApiBody α
  deriving DecidableEq

/-- One error or warning entry attached to an import log (timestamp plus
message), as read by the details modal. -/
structure LogNote where
  timestamp : String
  message : String
  deriving DecidableEq

/-- The `ImportLogEntry` record as declared by the dashboard in
`ImportHistoryTable.tsx` (lines 19-42).  Counts are `Nat`, the millisecond
duration is `Option Int` (nullable JS number), nullable strings are
`Option String`.  The TS union types for `status` and `triggerType` are
runtime strings and are modelled as `String`.  The free-form `metadata : any`
field is not used by any dashboard logic and is omitted. -/
structure ImportLogEntry where
  id : String
  importId : String
  source : String
  sourceUrl : String
  status : String
  timestamp : String
  duration : Option Int
  totalFetched : Nat
  totalImported : Nat
  newJobs : Nat
  updatedJobs : Nat
  failedJobs : Nat
  successRate : Nat
  errorCount : Nat
  warningCount : Nat
  triggerType : String
  triggeredBy : String
  startTime : String
  endTime : Option String
  errors : List LogNote
  warnings : List LogNote
  deriving DecidableEq

/-- The `Pagination` object as declared by the dashboard
(`ImportHistoryTable.tsx` lines 57-64). -/
structure Pagination where
  currentPage : Nat
  totalPages : Nat
  totalCount : Nat
  hasNextPage : Bool
  hasPrevPage : Bool
  limit : Nat
  deriving DecidableEq

/-- The `Filters` state (`ImportHistoryTable.tsx` lines 48-55).  `sortOrder`
is the TS union `"asc" | "desc"`; at runtime it is a string, so it is
modelled as `String` and the asc/desc invariant is proved over the states the
component can actually reach. -/
structure Filters where
  source : String
  status : String
  startDate : String
  endDate : String
  sortBy : String
  sortOrder : String
  deriving DecidableEq

/-- Payload of a successful GET `/api/import/logs`: `data.logs` and
`data.pagination`. -/
structure LogsData where
  logs : List ImportLogEntry
  pagination : Pagination
  deriving DecidableEq

/-- The state of the `ImportHistoryTable` component that the log-fetching
logic touches: the displayed logs, the loading flag, the pagination object
and the filters. -/
structure TableState where
  logs : List ImportLogEntry
  loading : Bool
  pagination : Pagination
  filters : Filters
  deriving DecidableEq

/-- Initial pagination state (`useState` initializer, lines 71-78). -/
def initialPagination : Pagination :=
  { currentPage := 1, totalPages := 1, totalCount := 0,
    hasNextPage := false, hasPrevPage := false, limit := 10 }

/-- Initial filters state (`useState` initializer, lines 79-86). -/
def initialFilters : Filters :=
  { source := "", status := "", startDate := "", endDate := "",
    sortBy := "startTime", sortOrder := "desc" }

/-- Initial component state: empty logs, loading, default pagination and
filters. -/
def initialTableState : TableState :=
  { logs := [], loading := true, pagination := initialPagination,
    filters := initialFilters }

/-- The query string built by `fetchLogs` (lines 95-104): a `URLSearchParams`
over the literal object whose four unconditional entries are `page`, `limit`,
`sortBy`, `sortOrder`, and whose four conditional entries are spread in only
when the corresponding filter string is truthy (non-empty). -/
def buildLogsQuery (page : Nat) (limit : Nat) (f : Filters) :
    List (String × String) :=
  [("page", toString page), ("limit", toString limit),
   ("sortBy", f.sortBy), ("sortOrder", f.sortOrder)]
  ++ (if f.source ≠ "" then [("source", f.source)] else [])
  ++ (if f.status ≠ "" then [("status", f.status)] else [])
  ++ (if f.startDate ≠ "" then [("startDate", f.startDate)] else [])
  ++ (if f.endDate ≠ "" then [("endDate", f.endDate)] else [])

/-- The `fetchLogs` handler (lines 92-122) as a state transformer.  The JS
control flow: `setLoading(true)`; on network rejection, a non-ok response, a
body with `success: false`, or a `success: true` body whose `data` field is
missing (the `data.data.logs` access throws), control reaches the `catch`
block which emits `toast.error("Failed to fetch import logs")`; only a
successful body updates `logs` and `pagination`; `finally` clears `loading`.
-/
def fetchLogs (st : TableState) (resp : Option (HttpResponse LogsData)) :
    TableState × List Toast :=
  match resp with
  | none => ({ st with loading := false },
             [Toast.error "Failed to fetch import logs"])
  | some r =>
    if r.ok then
      if r.body.success then
        match r.body.data with
        | some d =>
          ({ st with
              logs := d.logs
              pagination := d.pagination
              loading := false }, [])
        | none => ({ st with loading := false },
                   [Toast.error "Failed to fetch import logs"])
      else
        ({ st with loading := false },
         [Toast.error "Failed to fetch import logs"])
    else
      ({ st with loading := false },
       [Toast.error "Failed to fetch import logs"])

/-- The `handleSort` handler (lines 140-146): clicking column `column` sets
`sortBy := column` and flips `sortOrder` to `"asc"` exactly when the column
was already the sort key and the order was `"desc"`; every other click sets
`"desc"`. -/
def handleSort (column : String) (f : Filters) : Filters :=
  let newOrder :=
    if f.sortBy = column ∧ f.sortOrder = "desc" then "asc" else "desc"
  { f with sortBy := column, sortOrder := newOrder }

/-- The `clearFilters` handler (lines 154-163): resets the filter state to
the literal default object. -/
def clearFilters : Filters :=
  { source := "", status := "", startDate := "", endDate := "",
    sortBy := "startTime", sortOrder := "desc" }

/-- The filter-mutating events the component can fire: the four
`handleFilterChange` call sites (source/status select boxes and the two date
inputs), a sort-header click, and the clear-filters button.  No other code
writes to the filters state. -/
inductive FilterEvent where
  | setSource (v : String)
  | setStatus (v : String)
  | setStartDate (v : String)
  | setEndDate (v : String)
  | sortClick (column : String)
  | clearClick
  deriving DecidableEq

/-- Apply one filter event, mirroring `handleFilterChange` (a single-key
functional update), `handleSort` and `clearFilters`. -/
def applyEvent (f : Filters) : FilterEvent → Filters
  | FilterEvent.setSource v => { f with source := v }
  | FilterEvent.setStatus v => { f with status := v }
  | FilterEvent.setStartDate v => { f with startDate := v }
  | FilterEvent.setEndDate v => { f with endDate := v }
  | FilterEvent.sortClick c => handleSort c f
  | FilterEvent.clearClick => clearFilters

/-- The filter state reached from the initial state after a sequence of UI
events. -/
def runEvents (es : List FilterEvent) : Filters :=
  es.foldl applyEvent initialFilters

/-- The heroicons used by the status badges. -/
inductive Icon where
  | clock
  | arrowUp
  | checkCircle
  | xCircle
  deriving DecidableEq

/-- One entry of the `statusConfig` object in `getStatusBadge`
(lines 167-189): background class, text class and icon. -/
structure StatusStyle where
  bg : String
  text : String
  icon : Icon
  deriving DecidableEq

/-- The `pending` entry of `statusConfig`. -/
def pendingStyle : StatusStyle :=
  { bg := "bg-yellow-100", text := "text-yellow-800", icon := Icon.clock }

/-- Property names that a plain JS object literal inherits from
`Object.prototype`.  The access `statusConfig[status]` for one of these
keys yields the inherited method (or, for `__proto__`, the prototype
object): a truthy value that is not one of the five style entries, so the
`|| statusConfig.pending` fallback does not apply to them. -/
def protoKeys : List String :=
  ["constructor", "hasOwnProperty", "isPrototypeOf", "propertyIsEnumerable",
   "toLocaleString", "toString", "valueOf", "__proto__", "__defineGetter__",
   "__defineSetter__", "__lookupGetter__", "__lookupSetter__"]

/-- The value of the JS property access `statusConfig[status]`: one of the
five own style entries, a truthy non-style value inherited from
`Object.prototype`, or `undefined`. -/
inductive ConfigValue where
  | style (s : StatusStyle)
  | protoValue
  | undef
  deriving DecidableEq

/-- Property access `statusConfig[status]` on the `statusConfig` object
literal of `getStatusBadge` (lines 167-189): the five own keys shadow the
prototype chain; a key inherited from `Object.prototype` yields a truthy
non-style value; every other key yields `undefined`. -/
def statusConfigAccess (status : String) : ConfigValue :=
  if status = "pending" then
    ConfigValue.style pendingStyle
  else if status = "in-progress" then
    ConfigValue.style
      { bg := "bg-blue-100", text := "text-blue-800", icon := Icon.arrowUp }
  else if status = "completed" then
    ConfigValue.style
      { bg := "bg-green-100", text := "text-green-800",
        icon := Icon.checkCircle }
  else if status = "failed" then
    ConfigValue.style
      { bg := "bg-red-100", text := "text-red-800", icon := Icon.xCircle }
  else if status = "cancelled" then
    ConfigValue.style
      { bg := "bg-gray-100", text := "text-gray-800", icon := Icon.xCircle }
  else if status ∈ protoKeys then
    ConfigValue.protoValue
  else
    ConfigValue.undef

/-- The rendered status badge: the class strings and the icon read off the
config value — `none` models the JS `undefined` obtained when `config` is a
truthy inherited value rather than a style entry — and the raw status string
rendered as the badge label. -/
structure Badge where
  bg : Option String
  text : Option String
  icon : Option Icon
  label : String
  deriving DecidableEq

/-- The `getStatusBadge` function (lines 166-203):
`const config = statusConfig[status] || statusConfig.pending` — the pending
fallback applies only when the access is falsy (`undefined`) — followed by
the reads `config.bg`, `config.text`, `config.icon`, which are `undefined`
when `config` is an inherited non-style value; the span always renders the
raw status text. -/
def getStatusBadge (status : String) : Badge :=
  let config :=
    match statusConfigAccess status with
    | ConfigValue.undef => ConfigValue.style pendingStyle
    | v => v
  match config with
  | ConfigValue.style c =>
    { bg := some c.bg, text := some c.text, icon := some c.icon,
      label := status }
  | _ => { bg := none, text := none, icon := none, label := status }

/-- The `formatDuration` function (lines 206-215).  JS `!duration` is true
for `null` and for `0`; `Math.floor` on a division by a positive literal is
`Int.fdiv`; the JS `%` remainder on the values reached in each branch agrees
with `Int.tmod`. -/
def formatDuration (duration : Option Int) : String :=
  match duration with
  | none => "N/A"
  | some d =>
    if d = 0 then "N/A"
    else
      let seconds := Int.fdiv d 1000
      let minutes := Int.fdiv seconds 60
      let hours := Int.fdiv minutes 60
      if 0 < hours then
        toString hours ++ "h " ++ toString (Int.tmod minutes 60) ++ "m"
      else if 0 < minutes then
        toString minutes ++ "m " ++ toString (Int.tmod seconds 60) ++ "s"
      else
        toString seconds ++ "s"

/-- Disabled attribute of the previous-page button (line 511):
`disabled=\x7b!pagination.hasPrevPage\x7d`. -/
def prevPageButtonDisabled (p : Pagination) : Bool := !p.hasPrevPage

/-- Disabled attribute of the next-page button (line 521):
`disabled=\x7b!pagination.hasNextPage\x7d`. -/
def nextPageButtonDisabled (p : Pagination) : Bool := !p.hasNextPage

/-- The `ImportStats` record declared by the dashboard page.  The JS numbers
are modelled as `Int`; the payload is never computed on by the frontend. -/
structure ImportStats where
  totalImports : Int
  totalFetched : Int
  totalImported : Int
  totalNew : Int
  totalUpdated : Int
  totalFailed : Int
  successRate : Int
  avgDuration : Int
  deriving DecidableEq

/-- The `QueueStats` record declared by the dashboard page. -/
structure QueueStats where
  waiting : Int
  active : Int
  completed : Int
  failed : Int
  total : Int
  deriving DecidableEq

/-- The scheduler part of the `ImportStatus` record. -/
structure SchedulerInfo where
  active : Bool
  taskCount : Int
  importInterval : String
  deriving DecidableEq

/-- The `ImportStatus` record declared by the dashboard page. -/
structure ImportStatus where
  queue : QueueStats
  scheduler : SchedulerInfo
  timestamp : String
  deriving DecidableEq

/-- The dashboard page state touched by `fetchData`: the two nullable data
payloads and the loading flag. -/
structure DashState where
  importStats : Option ImportStats
  importStatus : Option ImportStatus
  loading : Bool
  deriving DecidableEq

/-- The dashboard page's `fetchData` handler (lines 758-780 of the combined
source).  `Promise.all` rejects when either fetch rejects, reaching the
`catch` block and its error toast.  When both responses settle, each is
consumed only if `ok`: `setImportStats(statsData.data)` stores the `data`
field (possibly `undefined`) without checking the body's `success` flag, and
a non-ok response is skipped silently — no toast is emitted on that path.
`finally` clears `loading`. -/
def fetchData (st : DashState) (statsResp : Option (HttpResponse ImportStats))
    (statusResp : Option (HttpResponse ImportStatus)) :
    DashState × List Toast :=
  match statsResp, statusResp with
  | some sr, some tr =>
    let st1 := if sr.ok then { st with importStats := sr.body.data } else st
    let st2 := if tr.ok then { st1 with importStatus := tr.body.data } else st1
    ({ st2 with loading := false }, [])
  | _, _ =>
    ({ st with loading := false },
     [Toast.error "Failed to fetch dashboard data"])

/-- Payload of a successful POST `/api/import/trigger`: `data.jobId`. -/
structure JobData where
  jobId : String
  deriving DecidableEq

/-- The HTTP request issued by `triggerImport` (lines 786-796): method, URL,
content type, and the JSON body as the ordered key-value list produced by
`JSON.stringify(\x7bpriority: 10, concurrency: 5, batchSize: 100\x7d)`. -/
structure TriggerRequest where
  method : String
  url : String
  contentType : String
  bodyFields : List (String × Int)
  deriving DecidableEq

/-- The concrete trigger request the dashboard sends. -/
def triggerRequest : TriggerRequest :=
  { method := "POST", url := "/api/import/trigger",
    contentType := "application/json",
    bodyFields := [("priority", 10), ("concurrency", 5), ("batchSize", 100)] }

/-- The dashboard page's `triggerImport` handler (lines 783-814), restricted
to the toasts it emits.  On an ok response it reads `data.data.jobId` and
shows the success toast; if `data.data` is missing that access throws and the
`catch` block shows the error toast; a non-ok response or network rejection
also reaches the `catch` block. -/
def triggerImport (resp : Option (HttpResponse JobData)) : List Toast :=
  match resp with
  | none => [Toast.error "Failed to trigger import job"]
  | some r =>
    if r.ok then
      match r.body.data with
      | some d =>
        [Toast.success ("Import job triggered successfully! Job ID: "
          ++ d.jobId)]
      | none => [Toast.error "Failed to trigger import job"]
    else
      [Toast.error "Failed to trigger import job"]

/-- Modelled from the spec: the pagination object the backend attaches to a
GET `/api/import/logs` reply.  The server code is not part of this frontend
repository; the spec states `totalPages = ceil(totalCount / limit)` and
`hasNextPage = (currentPage < totalPages)`, with `hasPrevPage` the obvious
counterpart `currentPage > 1`. -/
def buildPagination (currentPage totalCount limit : Nat) : Pagination :=
  { currentPage := currentPage,
    totalPages := (totalCount + limit - 1) / limit,
    totalCount := totalCount,
    hasNextPage := decide (currentPage < (totalCount + limit - 1) / limit),
    hasPrevPage := decide (1 < currentPage),
    limit := limit }

/-- Modelled from the spec: the `successRate` stored on an `ImportLogEntry`
by the backend (not part of this repository): `round(totalImported /
totalFetched * 100)` when `totalFetched > 0`, else `0`.  For nonnegative
arguments JS `Math.round x = floor (x + 1/2)`, and
`floor (100 * ti / tf + 1/2) = (200 * ti + tf) / (2 * tf)` in natural-number
division. -/
def successRateOf (totalImported totalFetched : Nat) : Nat :=
  if totalFetched = 0 then 0
  else (200 * totalImported + totalFetched) / (2 * totalFetched)

/-- A concrete import log entry used in witness instances (the end-to-end
scenario of the spec: 100 fetched, 80 new, 5 failed validation). -/
def sampleLog : ImportLogEntry :=
  { id := "log-1", importId := "imp-1", source := "jobicy",
    sourceUrl := "https://jobicy.com/feed", status := "completed",
    timestamp := "2025-01-01T00:00:00Z", duration := some 125000,
    totalFetched := 100, totalImported := 80, newJobs := 80,
    updatedJobs := 0, failedJobs := 5, successRate := 80, errorCount := 0,
    warningCount := 0, triggerType := "manual", triggeredBy := "admin",
    startTime := "2025-01-01T00:00:00Z",
    endTime := some "2025-01-01T00:02:05Z", errors := [], warnings := [] }

/-- A concrete table state with one displayed log, used in witness
instances. -/
def sampleTableState : TableState :=
  { logs := [sampleLog], loading := false, pagination := initialPagination,
    filters := initialFilters }

/-- A concrete failed logs response (non-2xx). -/
def failedLogsResp : HttpResponse LogsData :=
  { ok := false, body := { success := false, message := some "boom",
                           data := none } }

/-- A concrete aggregate-stats payload. -/
def sampleStats : ImportStats :=
  { totalImports := 5, totalFetched := 100, totalImported := 80,
    totalNew := 60, totalUpdated := 20, totalFailed := 5,
    successRate := 80, avgDuration := 120000 }

/-- A concrete status payload. -/
def sampleStatus : ImportStatus :=
  { queue := { waiting := 0, active := 1, completed := 4, failed := 0,
               total := 5 },
    scheduler := { active := true, taskCount := 1, importInterval := "1h" },
    timestamp := "2025-01-01T00:00:00Z" }

/-- A concrete dashboard state before a refresh. -/
def dashStateBefore : DashState :=
  { importStats := none, importStatus := some sampleStatus,
    loading := false }

/-- A concrete non-2xx `/api/import/stats` response. -/
def badStatsResp : HttpResponse ImportStats :=
  { ok := false, body := { success := false, message := some "boom",
                           data := none } }

/-- A concrete 2xx `/api/import/stats` response whose body carries
`success: false` yet also a `data` payload. -/
def falseSuccessStatsResp : HttpResponse ImportStats :=
  { ok := true, body := { success := false, message := some "boom",
                          data := some sampleStats } }

/-- A concrete successful `/api/import/status` response. -/
def okStatusResp : HttpResponse ImportStatus :=
  { ok := true, body := { success := true, message := none,
                          data := some sampleStatus } }

/-- A concrete non-2xx `/api/import/trigger` response. -/
def badTriggerResp : HttpResponse JobData :=
  { ok := false, body := { success := false, message := some "boom",
                           data := none } }

/-- A concrete 2xx `/api/import/trigger` response whose body carries
`success: false` yet also a `data.jobId` payload. -/
def falseSuccessTriggerResp : HttpResponse JobData :=
  { ok := true, body := { success := false, message := some "boom",
                          data := some { jobId := "job-9" } } }

/-- Helper: every failed `/api/import/logs` request (network rejection,
non-ok response, or `success: false` body) leaves `logs` and `pagination`
untouched and emits the error toast. -/
theorem fetchLogs_failure_aux (st : TableState)
    (resp : Option (HttpResponse LogsData))
    (h : resp = none ∨
      ∃ r, resp = some r ∧ (r.ok = false ∨ r.body.success = false)) :
    (fetchLogs st resp).1.logs = st.logs ∧
    (fetchLogs st resp).1.pagination = st.pagination ∧
    Toast.error "Failed to fetch import logs" ∈ (fetchLogs st resp).2 := by
  rcases h with h | ⟨r, hr, hfail⟩
  · subst h
    simp [fetchLogs]
  · subst hr
    obtain ⟨ok, body⟩ := r
    rcases hfail with h | h <;> cases ok <;> simp_all [fetchLogs]

/-- Helper: no string extended by a final `"m"` is the string `"N/A"`. -/
theorem append_m_ne_NA (s : String) : s ++ "m" ≠ "N/A" := by
  intro h
  have h2 := congrArg String.data h
  rw [String.data_append] at h2
  have h3 := congrArg List.getLast? h2
  rw [List.getLast?_concat] at h3
  simp at h3

/-- Helper: no string extended by a final `"s"` is the string `"N/A"`. -/
theorem append_s_ne_NA (s : String) : s ++ "s" ≠ "N/A" := by
  intro h
  have h2 := congrArg String.data h
  rw [String.data_append] at h2
  have h3 := congrArg List.getLast? h2
  rw [List.getLast?_concat] at h3
  simp at h3

/-- Helper: JS `Math.round` of `a / b * 100` for naturals equals the
natural-number expression `(200 * a + b) / (2 * b)`. -/
theorem round_nat_ratio (a b : ℕ) (hb : 0 < b) :
    round ((a : ℚ) / b * 100) = ((200 * a + b) / (2 * b) : ℕ) := by
  rw [round_eq]
  have hb' : (b : ℚ) ≠ 0 := by positivity
  have key : (a : ℚ) / b * 100 + 1 / 2
      = ((200 * a + b : ℕ) : ℚ) / ((2 * b : ℕ) : ℚ) := by
    push_cast
    field_simp
    ring
  rw [key]
  rw [← Int.natCast_floor_eq_floor (by positivity)]
  rw [Nat.floor_div_nat ((200 * a + b : ℕ) : ℚ) (2 * b)]
  rw [Nat.floor_natCast]

/-- Helper: the sort order stays in the asc/desc set under any sequence of
filter events. -/
theorem sortOrder_invariant_aux (es : List FilterEvent) (f : Filters)
    (h : f.sortOrder = "asc" ∨ f.sortOrder = "desc") :
    (es.foldl applyEvent f).sortOrder = "asc" ∨
    (es.foldl applyEvent f).sortOrder = "desc" := by
  induction es generalizing f with
  | nil => exact h
  | cons e es ih =>
    apply ih
    cases e with
    | setSource v => simpa [applyEvent] using h
    | setStatus v => simpa [applyEvent] using h
    | setStartDate v => simpa [applyEvent] using h
    | setEndDate v => simpa [applyEvent] using h
    | sortClick c =>
      simp only [applyEvent, handleSort]
      split <;> simp
    | clearClick =>
      simp [applyEvent, clearFilters]

/-- C2: for every failed request to `/api/import/logs` — network error,
non-ok response, or a body with `success: false` — the logs list and the
pagination state held by the import-history table are left unchanged (the
previously displayed data remains visible) and an error message is
displayed. -/
theorem fetchLogs_failure_preserves_state (st : TableState)
    (resp : Option (HttpResponse LogsData))
    (h : resp = none ∨
      ∃ r, resp = some r ∧ (r.ok = false ∨ r.body.success = false)) :
    (fetchLogs st resp).1.logs = st.logs ∧
    (fetchLogs st resp).1.pagination = st.pagination ∧
    Toast.error "Failed to fetch import logs" ∈ (fetchLogs st resp).2 :=
  fetchLogs_failure_aux st resp h

/-- Witness for C2: a concrete non-ok response leaves the concrete table
state's logs and pagination unchanged and emits the error toast. -/
theorem fetchLogs_failure_preserves_state_witness :
    (fetchLogs sampleTableState (some failedLogsResp)).1.logs
      = sampleTableState.logs ∧
    (fetchLogs sampleTableState (some failedLogsResp)).1.pagination
      = sampleTableState.pagination ∧
    Toast.error "Failed to fetch import logs"
      ∈ (fetchLogs sampleTableState (some failedLogsResp)).2 :=
  fetchLogs_failure_preserves_state sampleTableState (some failedLogsResp)
    (Or.inr ⟨failedLogsResp, rfl, Or.inl rfl⟩)

/-- C3: on the initial log query and after `clearFilters`, the sort
parameters sent to `/api/import/logs` are `sortBy = startTime` and
`sortOrder = desc`, and over every reachable filter state the sort order is
one of `asc` or `desc`. -/
theorem default_sort_params :
    initialFilters.sortBy = "startTime" ∧
    initialFilters.sortOrder = "desc" ∧
    clearFilters.sortBy = "startTime" ∧
    clearFilters.sortOrder = "desc" ∧
    (∀ page limit : Nat,
      ("sortBy", "startTime") ∈ buildLogsQuery page limit initialFilters ∧
      ("sortOrder", "desc") ∈ buildLogsQuery page limit initialFilters ∧
      ("sortBy", "startTime") ∈ buildLogsQuery page limit clearFilters ∧
      ("sortOrder", "desc") ∈ buildLogsQuery page limit clearFilters) ∧
    ∀ es : List FilterEvent,
      (runEvents es).sortOrder = "asc" ∨ (runEvents es).sortOrder = "desc" := by
  refine ⟨rfl, rfl, rfl, rfl, fun page limit => ?_, fun es => ?_⟩
  · refine ⟨?_, ?_, ?_, ?_⟩ <;> simp [buildLogsQuery, initialFilters, clearFilters]
  · exact sortOrder_invariant_aux es initialFilters (Or.inr rfl)

/-- C4: for every filter state, the query string built for GET
`/api/import/logs` always contains the keys `page`, `limit`, `sortBy` and
`sortOrder`, and contains each of `source`, `status`, `startDate`, `endDate`
if and only if that filter value is non-empty. -/
theorem logs_query_params_exactly (page limit : Nat) (f : Filters) :
    "page" ∈ (buildLogsQuery page limit f).map Prod.fst ∧
    "limit" ∈ (buildLogsQuery page limit f).map Prod.fst ∧
    "sortBy" ∈ (buildLogsQuery page limit f).map Prod.fst ∧
    "sortOrder" ∈ (buildLogsQuery page limit f).map Prod.fst ∧
    ("source" ∈ (buildLogsQuery page limit f).map Prod.fst ↔ f.source ≠ "") ∧
    ("status" ∈ (buildLogsQuery page limit f).map Prod.fst ↔ f.status ≠ "") ∧
    ("startDate" ∈ (buildLogsQuery page limit f).map Prod.fst ↔
      f.startDate ≠ "") ∧
    ("endDate" ∈ (buildLogsQuery page limit f).map Prod.fst ↔
      f.endDate ≠ "") := by
  rcases eq_or_ne f.source "" with h1 | h1 <;>
    rcases eq_or_ne f.status "" with h2 | h2 <;>
      rcases eq_or_ne f.startDate "" with h3 | h3 <;>
        rcases eq_or_ne f.endDate "" with h4 | h4 <;>
          simp [buildLogsQuery, h1, h2, h3, h4]

/-- C8: `formatDuration` returns `"N/A"` for `null` and for a zero duration,
and for every positive duration it returns a non-`"N/A"` string in
hours/minutes, minutes/seconds, or seconds form. -/
theorem formatDuration_cases :
    formatDuration none = "N/A" ∧
    formatDuration (some 0) = "N/A" ∧
    ∀ d : Int, 0 < d →
      formatDuration (some d) ≠ "N/A" ∧
      ∃ a b : Int,
        formatDuration (some d) = toString a ++ "h " ++ toString b ++ "m" ∨
        formatDuration (some d) = toString a ++ "m " ++ toString b ++ "s" ∨
        formatDuration (some d) = toString a ++ "s" := by
  refine ⟨rfl, rfl, fun d hd => ?_⟩
  have hne : ¬ d = 0 := by omega
  simp only [formatDuration, if_neg hne]
  split_ifs with h1 h2
  · exact ⟨append_m_ne_NA _, ((d.fdiv 1000).fdiv 60).fdiv 60,
      Int.tmod ((d.fdiv 1000).fdiv 60) 60, Or.inl rfl⟩
  · exact ⟨append_s_ne_NA _, (d.fdiv 1000).fdiv 60,
      Int.tmod (d.fdiv 1000) 60, Or.inr (Or.inl rfl)⟩
  · exact ⟨append_s_ne_NA _, d.fdiv 1000, 0, Or.inr (Or.inr rfl)⟩

/-- Witness for C8: a concrete positive duration is not rendered as
`"N/A"`. -/
theorem formatDuration_cases_witness :
    formatDuration (some 125000) ≠ "N/A" :=
  (formatDuration_cases.2.2 125000 (by decide)).1

/-- Counterexample to C9 as stated: `"toString"` is outside the five
documented statuses, yet `statusConfig["toString"]` is the truthy method
inherited from `Object.prototype`, so the `|| statusConfig.pending`
fallback does not apply and the badge's style classes and icon come out
`undefined` rather than the pending style. -/
theorem getStatusBadge_proto_cex :
    "toString" ∉ ["pending", "in-progress", "completed", "failed",
                  "cancelled"] ∧
    getStatusBadge "toString"
      = { bg := none, text := none, icon := none, label := "toString" } ∧
    (getStatusBadge "toString").bg ≠ some "bg-yellow-100" := by
  decide

/-- C9 amended: `getStatusBadge` always returns a badge labelled with the
raw status string; for every string outside the five documented statuses
and outside the property names inherited from `Object.prototype` it falls
back to the pending style; for an inherited property name the truthy
inherited value defeats the `||` fallback and the badge's style classes and
icon are `undefined`. -/
theorem getStatusBadge_fallback_amended :
    (∀ s : String, (getStatusBadge s).label = s) ∧
    (∀ s : String,
      s ∉ ["pending", "in-progress", "completed", "failed", "cancelled"] →
      s ∉ protoKeys →
      getStatusBadge s =
        { bg := some "bg-yellow-100", text := some "text-yellow-800",
          icon := some Icon.clock, label := s }) ∧
    (∀ s : String, s ∈ protoKeys →
      getStatusBadge s =
        { bg := none, text := none, icon := none, label := s }) := by
  refine ⟨?_, ?_, ?_⟩
  · intro s
    rcases hc : statusConfigAccess s with c | _ | _ <;>
      simp [getStatusBadge, hc]
  · intro s h hp
    simp only [List.mem_cons, List.not_mem_nil, or_false, not_or] at h
    obtain ⟨h1, h2, h3, h4, h5⟩ := h
    simp [getStatusBadge, statusConfigAccess, pendingStyle,
      h1, h2, h3, h4, h5, hp]
  · intro s hp
    have h1 : s ≠ "pending" := by rintro rfl; revert hp; decide
    have h2 : s ≠ "in-progress" := by rintro rfl; revert hp; decide
    have h3 : s ≠ "completed" := by rintro rfl; revert hp; decide
    have h4 : s ≠ "failed" := by rintro rfl; revert hp; decide
    have h5 : s ≠ "cancelled" := by rintro rfl; revert hp; decide
    simp [getStatusBadge, statusConfigAccess, h1, h2, h3, h4, h5, hp]

/-- Witness for C9 amended: `"unknown"` (outside the five statuses and the
inherited names) gets the pending style, while the inherited name
`"constructor"` keeps its label but gets undefined style and icon. -/
theorem getStatusBadge_fallback_amended_witness :
    getStatusBadge "unknown" =
      { bg := some "bg-yellow-100", text := some "text-yellow-800",
        icon := some Icon.clock, label := "unknown" } ∧
    getStatusBadge "constructor" =
      { bg := none, text := none, icon := none, label := "constructor" } :=
  ⟨getStatusBadge_fallback_amended.2.1 "unknown" (by decide) (by decide),
   getStatusBadge_fallback_amended.2.2 "constructor" (by decide)⟩

/-- C10: `handleSort` sets the sort order to `asc` exactly when the clicked
column is already the sort key and the order is `desc`, and to `desc`
otherwise; a newly selected column therefore starts descending, and clicking
the column that is already the sort key twice returns the order to its
starting value. -/
theorem handleSort_toggle (f : Filters) (c : String) :
    ((handleSort c f).sortOrder = "asc" ↔
      f.sortBy = c ∧ f.sortOrder = "desc") ∧
    (handleSort c f).sortBy = c ∧
    (f.sortBy ≠ c → (handleSort c f).sortOrder = "desc") ∧
    (f.sortBy = c → f.sortOrder = "asc" ∨ f.sortOrder = "desc" →
      (handleSort c (handleSort c f)).sortOrder = f.sortOrder) := by
  refine ⟨?_, rfl, ?_, ?_⟩
  · simp only [handleSort]
    split_ifs with h
    · exact iff_of_true rfl h
    · exact iff_of_false (by decide) h
  · intro hby
    simp [handleSort, hby]
  · intro hby ho
    rcases ho with ho | ho <;> simp [handleSort, hby, ho]

/-- Witness for C10: clicking a fresh column starts descending, and a double
click on the current sort column restores the initial descending order. -/
theorem handleSort_toggle_witness :
    (handleSort "source" initialFilters).sortOrder = "desc" ∧
    (handleSort "startTime" (handleSort "startTime" initialFilters)).sortOrder
      = initialFilters.sortOrder :=
  ⟨(handleSort_toggle initialFilters "source").2.2.1 (by decide),
   (handleSort_toggle initialFilters "startTime").2.2.2 (by decide)
     (Or.inr (by decide))⟩

/-- C5: every manual trigger issued by the dashboard is a POST to
`/api/import/trigger` whose JSON body consists of exactly the three integer
fields `priority`, `concurrency` and `batchSize`, and on a successful
response the job id is read from `data.data.jobId` and shown to the user in
the success toast. -/
theorem trigger_request_shape :
    triggerRequest.method = "POST" ∧
    triggerRequest.url = "/api/import/trigger" ∧
    triggerRequest.bodyFields
      = [("priority", 10), ("concurrency", 5), ("batchSize", 100)] ∧
    triggerRequest.bodyFields.map Prod.fst
      = ["priority", "concurrency", "batchSize"] ∧
    ∀ (r : HttpResponse JobData) (d : JobData),
      r.ok = true → r.body.data = some d →
      triggerImport (some r)
        = [Toast.success
            ("Import job triggered successfully! Job ID: " ++ d.jobId)] := by
  refine ⟨rfl, rfl, rfl, rfl, ?_⟩
  intro r d hok hdata
  obtain ⟨ok, body⟩ := r
  simp only at hok hdata
  subst hok
  simp only [triggerImport, if_true]
  rw [hdata]

/-- Witness for C5: a concrete successful trigger response yields the success
toast carrying its job id. -/
theorem trigger_request_shape_witness :
    triggerImport
        (some { ok := true,
                body := { success := true, message := none,
                          data := some { jobId := "job-42" } } })
      = [Toast.success
          ("Import job triggered successfully! Job ID: " ++ "job-42")] :=
  trigger_request_shape.2.2.2.2 _ { jobId := "job-42" } rfl rfl

/-- C6: for every paginated log query result (as the spec defines the
backend's pagination object), `totalPages = ceil(totalCount / limit)` —
stated both as equality with `Nat` ceiling division and by the
characterizing inequalities — and `hasNextPage = (currentPage < totalPages)`;
and in the dashboard the next-page button is enabled exactly when
`hasNextPage` and the previous-page button exactly when `hasPrevPage`. -/
theorem pagination_invariants :
    (∀ p : Pagination,
      (nextPageButtonDisabled p = false ↔ p.hasNextPage = true) ∧
      (prevPageButtonDisabled p = false ↔ p.hasPrevPage = true)) ∧
    ∀ currentPage totalCount limit : Nat, 0 < limit →
      (buildPagination currentPage totalCount limit).totalPages
        = totalCount ⌈/⌉ limit ∧
      totalCount
        ≤ (buildPagination currentPage totalCount limit).totalPages * limit ∧
      (buildPagination currentPage totalCount limit).totalPages * limit
        < totalCount + limit ∧
      ((buildPagination currentPage totalCount limit).hasNextPage = true ↔
        currentPage
          < (buildPagination currentPage totalCount limit).totalPages) := by
  constructor
  · intro p
    constructor <;> simp [nextPageButtonDisabled, prevPageButtonDisabled]
  · intro currentPage totalCount limit hl
    refine ⟨rfl, ?_, ?_, by simp [buildPagination]⟩ <;>
      · simp only [buildPagination]
        have h1 := Nat.div_add_mod (totalCount + limit - 1) limit
        have h2 : (totalCount + limit - 1) % limit < limit :=
          Nat.mod_lt _ hl
        rw [mul_comm]
        generalize hM : limit * ((totalCount + limit - 1) / limit) = M at h1 ⊢
        omega

/-- Witness for C6: at `totalCount = 25`, `limit = 10`, `currentPage = 2`
the built pagination has three pages and an enabled next-page button. -/
theorem pagination_invariants_witness :
    (buildPagination 2 25 10).totalPages = 25 ⌈/⌉ 10 ∧
    ((buildPagination 2 25 10).hasNextPage = true ↔
      2 < (buildPagination 2 25 10).totalPages) ∧
    (nextPageButtonDisabled initialPagination = false ↔
      initialPagination.hasNextPage = true) :=
  ⟨(pagination_invariants.2 2 25 10 (by decide)).1,
   (pagination_invariants.2 2 25 10 (by decide)).2.2.2,
   (pagination_invariants.1 initialPagination).1⟩

/-- C7: for every displayed `ImportLogEntry` whose stored `successRate` is
the spec-modelled backend value and whose imported count does not exceed its
fetched count, `successRate` is `round(totalImported / totalFetched * 100)`
when `totalFetched > 0` and `0` when `totalFetched = 0`, and it lies in
`[0, 100]`, so rendering it directly as a CSS percentage width is valid. -/
theorem successRate_bounds (e : ImportLogEntry)
    (h1 : e.totalImported ≤ e.totalFetched)
    (h2 : e.successRate = successRateOf e.totalImported e.totalFetched) :
    (e.totalFetched = 0 → e.successRate = 0) ∧
    (0 < e.totalFetched →
      (e.successRate : ℤ)
        = round ((e.totalImported : ℚ) / e.totalFetched * 100)) ∧
    e.successRate ≤ 100 := by
  refine ⟨fun h0 => ?_, fun h0 => ?_, ?_⟩
  · rw [h2, successRateOf, if_pos h0]
  · have h0' : ¬ e.totalFetched = 0 := by omega
    rw [h2, successRateOf, if_neg h0',
      round_nat_ratio e.totalImported e.totalFetched h0]
  · rw [h2, successRateOf]
    split_ifs with h0
    · omega
    · have h0' : 0 < e.totalFetched := by omega
      have hle : 200 * e.totalImported + e.totalFetched
          ≤ 201 * e.totalFetched := by omega
      calc (200 * e.totalImported + e.totalFetched) / (2 * e.totalFetched)
          ≤ (201 * e.totalFetched) / (2 * e.totalFetched) :=
            Nat.div_le_div_right hle
        _ = 201 / 2 := Nat.mul_div_mul_right 201 2 h0'
        _ = 100 := rfl

/-- Witness for C7: the sample log entry (80 imported of 100 fetched) has a
success rate of at most 100. -/
theorem successRate_bounds_witness :
    sampleLog.successRate ≤ 100 :=
  (successRate_bounds sampleLog (by decide) (by decide)).2.2

/-- Counterexample to C1 as stated: for a non-2xx `/api/import/stats`
response the dashboard's `fetchData` emits no toast at all (no error is
surfaced); for a 2xx stats response whose body has `success: false` the
body's `data` payload is stored into `importStats` (rendered as fresh data)
and again no error is surfaced; and for a 2xx `/api/import/trigger`
response whose body has `success: false` but carries `data.jobId`, the
trigger handler shows the success toast instead of surfacing an error. -/
theorem dashboard_error_surfacing_cex :
    badStatsResp.ok = false ∧
    (fetchData dashStateBefore (some badStatsResp) (some okStatusResp)).2
      = [] ∧
    falseSuccessStatsResp.ok = true ∧
    falseSuccessStatsResp.body.success = false ∧
    (fetchData dashStateBefore (some falseSuccessStatsResp)
        (some okStatusResp)).1.importStats = some sampleStats ∧
    (fetchData dashStateBefore (some falseSuccessStatsResp)
        (some okStatusResp)).2 = [] ∧
    falseSuccessTriggerResp.ok = true ∧
    falseSuccessTriggerResp.body.success = false ∧
    triggerImport (some falseSuccessTriggerResp)
      = [Toast.success
          ("Import job triggered successfully! Job ID: " ++ "job-9")] :=
  ⟨rfl, rfl, rfl, rfl, rfl, rfl, rfl, rfl, rfl⟩

/-- C1 amended: the import-history table treats every failed
`/api/import/logs` response (non-2xx or `success: false`) as an error to
surface, leaving its data untouched; the trigger handler surfaces an error
toast on every non-2xx `/api/import/trigger` response and on a 2xx body
without `data`, but acts on any 2xx body carrying `data.jobId` without
checking its `success` flag (showing the success toast even for
`success: false`); and for `/api/import/stats` and `/api/import/status` the
dashboard page silently skips a non-2xx response (prior data stays, no
error is surfaced) and renders the `data` field of any 2xx body without
checking its `success` flag. -/
theorem dashboard_error_surfacing_amended :
    (∀ (st : TableState) (resp : Option (HttpResponse LogsData)),
      resp = none ∨
        (∃ r, resp = some r ∧ (r.ok = false ∨ r.body.success = false)) →
      (fetchLogs st resp).1.logs = st.logs ∧
      (fetchLogs st resp).1.pagination = st.pagination ∧
      Toast.error "Failed to fetch import logs" ∈ (fetchLogs st resp).2) ∧
    (∀ r : HttpResponse JobData, r.ok = false →
      triggerImport (some r) = [Toast.error "Failed to trigger import job"]) ∧
    (∀ r : HttpResponse JobData, r.ok = true → r.body.data = none →
      triggerImport (some r) = [Toast.error "Failed to trigger import job"]) ∧
    (∀ (r : HttpResponse JobData) (d : JobData),
      r.ok = true → r.body.data = some d →
      triggerImport (some r)
        = [Toast.success
            ("Import job triggered successfully! Job ID: " ++ d.jobId)]) ∧
    (∀ (st : DashState) (sr : HttpResponse ImportStats)
        (tr : HttpResponse ImportStatus), sr.ok = false →
      (fetchData st (some sr) (some tr)).1.importStats = st.importStats ∧
      (fetchData st (some sr) (some tr)).2 = []) ∧
    (∀ (st : DashState) (sr : HttpResponse ImportStats)
        (tr : HttpResponse ImportStatus), sr.ok = true →
      (fetchData st (some sr) (some tr)).1.importStats = sr.body.data) ∧
    (∀ (st : DashState) (sr : HttpResponse ImportStats)
        (tr : HttpResponse ImportStatus), tr.ok = false →
      (fetchData st (some sr) (some tr)).1.importStatus = st.importStatus ∧
      (fetchData st (some sr) (some tr)).2 = []) ∧
    (∀ (st : DashState) (sr : HttpResponse ImportStats)
        (tr : HttpResponse ImportStatus), tr.ok = true →
      (fetchData st (some sr) (some tr)).1.importStatus = tr.body.data) := by
  refine ⟨fun st resp h => fetchLogs_failure_aux st resp h,
    ?_, ?_, ?_, ?_, ?_, ?_, ?_⟩
  · intro r hok
    obtain ⟨ok, body⟩ := r
    simp only at hok
    subst hok
    simp [triggerImport]
  · intro r hok hdata
    obtain ⟨ok, body⟩ := r
    simp only at hok hdata
    subst hok
    simp only [triggerImport, if_true]
    rw [hdata]
  · intro r d hok hdata
    obtain ⟨ok, body⟩ := r
    simp only at hok hdata
    subst hok
    simp only [triggerImport, if_true]
    rw [hdata]
  all_goals
    intro st sr tr h
    obtain ⟨sok, sbody⟩ := sr
    obtain ⟨tok, tbody⟩ := tr
    simp only at h
    cases sok <;> cases tok <;> simp_all [fetchData]

/-- Witness for C1 amended: concrete instances of the behaviors — a
network-failed logs request keeps the logs, a non-2xx trigger response
yields the error toast, a 2xx `success: false` trigger body with a job id
still yields the success toast, and a non-2xx stats response leaves
`importStats` unchanged with no toast emitted. -/
theorem dashboard_error_surfacing_amended_witness :
    (fetchLogs sampleTableState none).1.logs = sampleTableState.logs ∧
    triggerImport (some badTriggerResp)
      = [Toast.error "Failed to trigger import job"] ∧
    triggerImport (some falseSuccessTriggerResp)
      = [Toast.success
          ("Import job triggered successfully! Job ID: " ++ "job-9")] ∧
    (fetchData dashStateBefore (some badStatsResp)
        (some okStatusResp)).1.importStats = dashStateBefore.importStats :=
  ⟨(dashboard_error_surfacing_amended.1 sampleTableState none (Or.inl rfl)).1,
   dashboard_error_surfacing_amended.2.1 badTriggerResp rfl,
   dashboard_error_surfacing_amended.2.2.2.1 falseSuccessTriggerResp
     { jobId := "job-9" } rfl rfl,
   (dashboard_error_surfacing_amended.2.2.2.2.1 dashStateBefore badStatsResp
      okStatusResp rfl).1⟩
